import Mathlib

/-!
Verification of the signal-generation backend.

The data model and operations below are a shallow embedding of the
signal generator (RSI, EMA, MACD, the three component score calculators,
the confidence / direction resolver) and of the hold-period check of the
scheduler. JavaScript numbers are modelled as rationals; JavaScript
`Math.round` (round half toward positive infinity) is modelled by
`jsRound`; the signal store lookup is modelled by passing the latest
stored `hold_until` value (or none) as an argument.
-/

/-- A candlestick as used by the calculators: only `high`, `low`, `close`
and `volume` are ever read by the embedded code. -/
structure Kline where
  high : ℚ
  low : ℚ
  close : ℚ
  volume : ℚ
deriving DecidableEq

/-- Default candle used to model JavaScript out-of-range array access
(never actually reached on the guarded paths). -/
def dfltKline : Kline := ⟨0, 0, 0, 0⟩

/-- An order-book snapshot: `imbalance = bidVolume / (bidVolume + askVolume)`. -/
structure OrderBook where
  bidVolume : ℚ
  askVolume : ℚ
  imbalance : ℚ
deriving DecidableEq

/-- Signal direction. -/
inductive Direction where
  | UP
  | DOWN
  | FLAT
deriving DecidableEq

/-- Aggressiveness tier. -/
inductive Aggressiveness where
  | conservative
  | moderate
  | aggressive
deriving DecidableEq

/-- A pair of direction thresholds. -/
structure Threshold where
  up : ℚ
  down : ℚ
deriving DecidableEq

/-- Threshold table of the signal generator. -/
def THRESHOLDS : Aggressiveness → Threshold
  | .conservative => ⟨70, 30⟩
  | .moderate => ⟨62, 38⟩
  | .aggressive => ⟨60, 40⟩

/-- JavaScript `Math.round`: round half toward positive infinity. -/
def jsRound (x : ℚ) : ℤ := ⌊x + 1/2⌋

/-- Generic clamp, as written in the specification:
`clamp(x, lo, hi) = max(lo, min(hi, x))`. -/
def clampQ (x lo hi : ℚ) : ℚ := max lo (min hi x)

/-- One iteration of the RSI gain/loss accumulation loop:
`change = closes[i+1] - closes[i]`; positive changes add to gains,
otherwise the change is subtracted from (i.e. its magnitude added to)
losses. -/
def rsiStep (closes : List ℚ) (gl : ℚ × ℚ) (i : ℕ) : ℚ × ℚ :=
  if 0 < closes.getD (i+1) 0 - closes.getD i 0 then
    (gl.1 + (closes.getD (i+1) 0 - closes.getD i 0), gl.2)
  else
    (gl.1, gl.2 - (closes.getD (i+1) 0 - closes.getD i 0))

/-- Accumulated gains and losses over the first `period` deltas. -/
def rsiGainsLosses (closes : List ℚ) (period : ℕ) : ℚ × ℚ :=
  (List.range period).foldl (rsiStep closes) (0, 0)

/-- `calculateRSI` from the signal generator: neutral 50 when fewer than
`period + 1` closes are available, 100 when the average loss is zero,
otherwise `100 - 100/(1 + rs)` with `rs = avgGain / avgLoss`. -/
def calculateRSI (closes : List ℚ) (period : ℕ := 14) : ℚ :=
  if closes.length < period + 1 then 50
  else if (rsiGainsLosses closes period).2 / (period : ℚ) = 0 then 100
  else
    100 - 100 / (1 + ((rsiGainsLosses closes period).1 / (period : ℚ)) /
      ((rsiGainsLosses closes period).2 / (period : ℚ)))

/-- `calculateEMA` from the signal generator: 0 on an empty series; else
seeded with the first element and folded with multiplier `2/(period+1)`. -/
def calculateEMA (data : List ℚ) (period : ℕ) : ℚ :=
  match data with
  | [] => 0
  | x :: xs => xs.foldl (fun ema d => (d - ema) * (2 / ((period : ℚ) + 1)) + ema) x

/-- Result record of `calculateMACD`. -/
structure MACDResult where
  macd : ℚ
  signal : ℚ
  histogram : ℚ
deriving DecidableEq

/-- `calculateMACD` from the signal generator: `macd = EMA12 - EMA26`; the
signal line is the EMA(9) of a 9-element constant array filled with `macd`
itself; `histogram = macd - signal`. -/
def calculateMACD (closes : List ℚ) : MACDResult :=
  { macd := calculateEMA closes 12 - calculateEMA closes 26
    signal := calculateEMA (List.replicate 9 (calculateEMA closes 12 - calculateEMA closes 26)) 9
    histogram := (calculateEMA closes 12 - calculateEMA closes 26) -
      calculateEMA (List.replicate 9 (calculateEMA closes 12 - calculateEMA closes 26)) 9 }

/-- RSI contribution to the momentum score: overbought subtracts
`(rsi-70)*1.5`, oversold adds `(30-rsi)*1.5`, the neutral zone adds
`(rsi-50)*0.5`. -/
def momentumRsiPart (rsi : ℚ) : ℚ :=
  if 70 < rsi then -((rsi - 70) * 1.5)
  else if rsi < 30 then (30 - rsi) * 1.5
  else (rsi - 50) * 0.5

/-- Five-candle trend strength of `calculateMomentumScore`:
`(recent[4] - recent[0]) / recent[0] * 100` over the last five closes. -/
def trendStrength (closes : List ℚ) : ℚ :=
  ((closes.drop (closes.length - 5)).getD 4 0 - (closes.drop (closes.length - 5)).getD 0 0) /
    (closes.drop (closes.length - 5)).getD 0 0 * 100

/-- `calculateMomentumScore` from the signal generator: 0 when fewer than
20 candles; otherwise the sum of the RSI part, the clamped MACD histogram
part and the clamped trend part, clamped to [-30, 30]. -/
def calculateMomentumScore (klines : List Kline) : ℚ :=
  if klines.length < 20 then 0
  else
    max (-30) (min 30
      (momentumRsiPart (calculateRSI (klines.map (fun k => k.close)) 14)
        + max (-20) (min 20 ((calculateMACD (klines.map (fun k => k.close))).histogram * 100))
        + max (-10) (min 10 (trendStrength (klines.map (fun k => k.close)) * 2))))

/-- `calculateOrderFlowScore` from the signal generator:
`(imbalance - 0.5) * 60`, clamped to [-30, 30]. -/
def calculateOrderFlowScore (orderBook : OrderBook) : ℚ :=
  max (-30) (min 30 ((orderBook.imbalance - 0.5) * 60))

/-- Average volume of the last-10-candle window of `calculateSentimentScore`. -/
def avgVolume10 (recent : List Kline) : ℚ :=
  (recent.foldl (fun s k => s + k.volume) 0) / 10

/-- Ratio of the most recent volume to the window average. -/
def volumeQuot (recent : List Kline) : ℚ :=
  (recent.getD 9 dfltKline).volume / avgVolume10 recent

/-- Whether the last close of the window strictly exceeds the first. -/
def priceUp10 (recent : List Kline) : Bool :=
  decide ((recent.getD 0 dfltKline).close < (recent.getD 9 dfltKline).close)

/-- Discrete sentiment rule table of `calculateSentimentScore`. -/
def sentimentBase (recent : List Kline) : ℚ :=
  if priceUp10 recent ∧ 1.2 < volumeQuot recent then 15
  else if ¬ priceUp10 recent ∧ 1.2 < volumeQuot recent then -15
  else if priceUp10 recent then 8
  else -8

/-- `calculateSentimentScore` from the signal generator: 0 when fewer than
10 candles; otherwise the rule-table value over the last 10 candles,
clamped to [-20, 20]. -/
def calculateSentimentScore (klines : List Kline) : ℚ :=
  if klines.length < 10 then 0
  else max (-20) (min 20 (sentimentBase (klines.drop (klines.length - 10))))

/-- Confluence step of `generateSignal` (lines 202-206): when all three
scores agree strongly in one direction, 8 is added to (bullish) or
subtracted from (bearish) the running confidence. -/
def confluenceAdjust (f m s conf : ℚ) : ℚ :=
  if (10 < f ∧ 10 < m ∧ 5 < s) ∨ (f < -10 ∧ m < -10 ∧ s < -5) then
    conf + (if 10 < f ∧ 10 < m ∧ 5 < s then 8 else -8)
  else conf

/-- The confluence adjustment amount as described by the specification:
+8 when all three scores are strongly bullish, -8 when all three are
strongly bearish, 0 otherwise. -/
def confluenceBonus (f m s : ℚ) : ℚ :=
  if 10 < f ∧ 10 < m ∧ 5 < s then 8
  else if f < -10 ∧ m < -10 ∧ s < -5 then -8
  else 0

/-- Pre-threshold confidence of `generateSignal`: weighted sum of the
three component scores, linear remap `50 + raw * 1.67`, confluence
adjustment, then clamp to [0, 100]. -/
def preThresholdConfidence (f m s : ℚ) : ℚ :=
  max 0 (min 100 (confluenceAdjust f m s (50 + (f * 0.35 + m * 0.40 + s * 0.25) * 1.67)))

/-- Direction decision against a threshold pair (lines 211-225):
`confidence >= up` gives UP/tradeable, else `confidence <= down` gives
DOWN/tradeable, else FLAT/not tradeable. -/
def decideDir (t : Threshold) (c : ℚ) : Direction × Bool :=
  if t.up ≤ c then (Direction.UP, true)
  else if c ≤ t.down then (Direction.DOWN, true)
  else (Direction.FLAT, false)

/-- Direction decision under an aggressiveness tier. -/
def decideDirection (a : Aggressiveness) (c : ℚ) : Direction × Bool :=
  decideDir (THRESHOLDS a) c

/-- The decision-relevant fields of the record returned by
`generateSignal`: direction, the rounded confidence (null when FLAT) and
the tradeable flag. -/
structure SignalCore where
  direction : Direction
  confidence : Option ℤ
  tradeable : Bool
deriving DecidableEq

/-- Pure core of `generateSignal`: component scores from the fetched
data, pre-threshold confidence, threshold decision, and the returned
record with `confidence = tradeable ? Math.round(confidence) : null`. -/
def generateSignal (klines : List Kline) (orderBook : OrderBook) (a : Aggressiveness) :
    SignalCore :=
  { direction := (decideDirection a (preThresholdConfidence (calculateOrderFlowScore orderBook)
      (calculateMomentumScore klines) (calculateSentimentScore klines))).1
    confidence :=
      if (decideDirection a (preThresholdConfidence (calculateOrderFlowScore orderBook)
          (calculateMomentumScore klines) (calculateSentimentScore klines))).2 then
        some (jsRound (preThresholdConfidence (calculateOrderFlowScore orderBook)
          (calculateMomentumScore klines) (calculateSentimentScore klines)))
      else none
    tradeable := (decideDirection a (preThresholdConfidence (calculateOrderFlowScore orderBook)
      (calculateMomentumScore klines) (calculateSentimentScore klines))).2 }

/-- `needsRegeneration` from the scheduler: true when the store holds no
signal for the key, else true exactly when the current time is strictly
past the stored `hold_until`. The store lookup is modelled by the
`latestHoldUntil` argument; times are epoch milliseconds. -/
def needsRegeneration (latestHoldUntil : Option ℤ) (now : ℤ) : Bool :=
  match latestHoldUntil with
  | none => true
  | some holdUntil => decide (holdUntil < now)

/-- `shouldGenerateSignal` from the one-shot generator script: same
logic as `needsRegeneration`. -/
def shouldGenerateSignal (existing : Option ℤ) (now : ℤ) : Bool :=
  match existing with
  | none => true
  | some holdUntil => decide (holdUntil < now)

/-- An in-range `getD` on a list whose elements are all the same value
returns that value. -/
lemma getD_all_eq {α : Type} (d : α) {l : List α} {v : α} (h : ∀ x ∈ l, x = v)
    {i : ℕ} (hi : i < l.length) : l.getD i d = v := by
  induction l generalizing i with
  | nil => simp at hi
  | cons x xs ih =>
    cases i with
    | zero => simpa using h x (by simp)
    | succ j =>
      have hj : j < xs.length := by simpa using hi
      simpa using ih (fun y hy => h y (by simp [hy])) hj

/-- The EMA fold leaves its accumulator unchanged on a constant tail. -/
lemma foldl_ema_const (m a : ℚ) (xs : List ℚ) (h : ∀ x ∈ xs, x = a) :
    xs.foldl (fun ema d => (d - ema) * m + ema) a = a := by
  induction xs with
  | nil => rfl
  | cons y ys ih =>
    have hy : y = a := h y (by simp)
    have hstep : (y - a) * m + a = a := by rw [hy]; ring
    simpa [hstep] using ih (fun x hx => h x (by simp [hx]))

/-- The EMA of a nonempty constant series is that constant. -/
lemma calculateEMA_const (v : ℚ) (l : List ℚ) (hne : l ≠ []) (h : ∀ x ∈ l, x = v)
    (p : ℕ) : calculateEMA l p = v := by
  cases l with
  | nil => exact absurd rfl hne
  | cons x xs =>
    have hx : x = v := h x (by simp)
    subst hx
    exact foldl_ema_const _ x xs (fun y hy => h y (by simp [hy]))

/-- The EMA(9) of a 9-element constant array is that constant. -/
lemma ema_replicate9 (c : ℚ) : calculateEMA (List.replicate 9 c) 9 = c := by
  have hne : List.replicate 9 c ≠ [] := by simp
  exact calculateEMA_const c _ hne (fun x hx => List.eq_of_mem_replicate hx) 9

/-- The MACD signal line always equals the MACD value itself. -/
lemma macd_signal_eq (closes : List ℚ) :
    (calculateMACD closes).signal = (calculateMACD closes).macd := by
  unfold calculateMACD
  exact ema_replicate9 _

/-- The MACD histogram is identically zero. -/
lemma macd_histogram_zero (closes : List ℚ) : (calculateMACD closes).histogram = 0 := by
  unfold calculateMACD
  rw [ema_replicate9]
  ring

/-- On a window with all-equal closes, the gain/loss accumulation stays at zero. -/
lemma rsiGainsLosses_const (closes : List ℚ) (v : ℚ) (period : ℕ)
    (h : ∀ i, i ≤ period → closes.getD i 0 = v) :
    rsiGainsLosses closes period = (0, 0) := by
  unfold rsiGainsLosses
  induction period with
  | zero => rfl
  | succ n ih =>
    rw [List.range_succ, List.foldl_append]
    rw [ih (fun i hi => h i (Nat.le_succ_of_le hi))]
    show List.foldl (rsiStep closes) (0, 0) [n] = (0, 0)
    have h1 : closes.getD (n + 1) 0 = v := h (n + 1) (Nat.le_refl _)
    have h2 : closes.getD n 0 = v := h n (Nat.le_succ n)
    simp only [List.foldl_cons, List.foldl_nil, rsiStep, h1, h2]
    norm_num

/-- RSI of a sufficiently long all-equal close series is 100 (the
average-loss-zero branch fires). -/
lemma calculateRSI_const (closes : List ℚ) (v : ℚ) (h15 : 15 ≤ closes.length)
    (hall : ∀ x ∈ closes, x = v) : calculateRSI closes 14 = 100 := by
  unfold calculateRSI
  rw [if_neg (by omega)]
  rw [rsiGainsLosses_const closes v 14
    (fun i hi => getD_all_eq 0 hall (by omega))]
  norm_num

/-- The confluence step adds exactly the confluence bonus. -/
lemma confluenceAdjust_eq (f m s c : ℚ) :
    confluenceAdjust f m s c = c + confluenceBonus f m s := by
  unfold confluenceAdjust confluenceBonus
  by_cases hb : 10 < f ∧ 10 < m ∧ 5 < s
  · simp [hb]
  · by_cases hr : f < -10 ∧ m < -10 ∧ s < -5
    · simp [hb, hr]
    · simp [hb, hr]

/-- The confluence bonus takes only the values 8, -8 and 0. -/
lemma confluenceBonus_cases (f m s : ℚ) :
    confluenceBonus f m s = 8 ∨ confluenceBonus f m s = -8 ∨ confluenceBonus f m s = 0 := by
  unfold confluenceBonus
  split_ifs <;> simp

/-- Characterisation of the threshold decision for any threshold pair
with `down < up`. -/
lemma decideDir_spec (t : Threshold) (c : ℚ) (hdu : t.down < t.up) :
    ((decideDir t c).1 = Direction.UP ↔ t.up ≤ c) ∧
    ((decideDir t c).1 = Direction.DOWN ↔ c ≤ t.down) ∧
    ((decideDir t c).1 = Direction.FLAT ↔ (t.down < c ∧ c < t.up)) ∧
    ((decideDir t c).2 = false ↔ (decideDir t c).1 = Direction.FLAT) := by
  unfold decideDir
  split_ifs with h1 h2
  · exact ⟨iff_of_true rfl h1,
      iff_of_false (fun h => by simp at h) (fun h => by linarith),
      iff_of_false (fun h => by simp at h) (fun h => by linarith [h.2]),
      by simp⟩
  · exact ⟨iff_of_false (fun h => by simp at h) (fun h => absurd h h1),
      iff_of_true rfl h2,
      iff_of_false (fun h => by simp at h) (fun h => by linarith [h.1]),
      by simp⟩
  · exact ⟨iff_of_false (fun h => by simp at h) (fun h => absurd h h1),
      iff_of_false (fun h => by simp at h) (fun h => absurd h h2),
      iff_of_true rfl ⟨not_le.mp h2, not_le.mp h1⟩,
      by simp⟩

/-- C5: the hold-period check returns true on a cold start (no stored
signal for the key); for a stored signal with holdUntil = T it returns
false for every query time at most T and true for every query time
strictly greater than T, in both `needsRegeneration` and
`shouldGenerateSignal`. -/
theorem hold_period_gating (T now : ℤ) :
    needsRegeneration none now = true ∧
    shouldGenerateSignal none now = true ∧
    (needsRegeneration (some T) now = true ↔ T < now) ∧
    (needsRegeneration (some T) now = false ↔ now ≤ T) ∧
    (shouldGenerateSignal (some T) now = true ↔ T < now) ∧
    (shouldGenerateSignal (some T) now = false ↔ now ≤ T) := by
  refine ⟨rfl, rfl, ?_, ?_, ?_, ?_⟩ <;>
    simp [needsRegeneration, shouldGenerateSignal]

/-- C6: for every closes list, the MACD signal line equals the MACD value
and the histogram is exactly 0, hence the MACD contribution to the
momentum score is always 0. -/
theorem macd_signal_degenerate (closes : List ℚ) :
    (calculateMACD closes).signal = (calculateMACD closes).macd ∧
    (calculateMACD closes).histogram = 0 ∧
    max (-20) (min 20 ((calculateMACD closes).histogram * 100)) = 0 := by
  refine ⟨macd_signal_eq closes, macd_histogram_zero closes, ?_⟩
  rw [macd_histogram_zero closes]
  norm_num

/-- C7: the order-flow score equals clamp((imbalance - 0.5) * 60, -30, 30),
is monotonically non-decreasing in the imbalance, always lies in
[-30, 30], and equals 18 at imbalance 0.8. -/
theorem orderflow_score_spec (ob1 ob2 : OrderBook) (h : ob1.imbalance ≤ ob2.imbalance) :
    calculateOrderFlowScore ob1 = clampQ ((ob1.imbalance - 0.5) * 60) (-30) 30 ∧
    calculateOrderFlowScore ob1 ≤ calculateOrderFlowScore ob2 ∧
    -30 ≤ calculateOrderFlowScore ob1 ∧
    calculateOrderFlowScore ob1 ≤ 30 ∧
    (ob1.imbalance = 0.8 → calculateOrderFlowScore ob1 = 18) := by
  refine ⟨rfl, ?_, ?_, ?_, ?_⟩
  · unfold calculateOrderFlowScore
    have hm : (ob1.imbalance - 0.5) * 60 ≤ (ob2.imbalance - 0.5) * 60 := by linarith
    exact max_le_max (le_refl _) (min_le_min (le_refl _) hm)
  · exact le_max_left _ _
  · exact max_le (by norm_num) (min_le_left _ _)
  · intro h8
    unfold calculateOrderFlowScore
    rw [h8]
    norm_num

/-- C7 witness: imbalance 0.8 versus 0.9 realises the hypotheses and the
score at imbalance 0.8 is 18. -/
theorem orderflow_score_spec_witness :
    ((⟨5, 5, 0.8⟩ : OrderBook).imbalance ≤ (⟨5, 5, 0.9⟩ : OrderBook).imbalance) ∧
    calculateOrderFlowScore ⟨5, 5, 0.8⟩ = 18 :=
  ⟨by norm_num, (orderflow_score_spec ⟨5, 5, 0.8⟩ ⟨5, 5, 0.9⟩ (by norm_num)).2.2.2.2 rfl⟩

/-- C8: graceful degradation on short history: RSI returns the neutral 50
whenever fewer than period + 1 closes are available, the momentum score
returns 0 for fewer than 20 candles, and the sentiment score returns 0
for fewer than 10 candles. -/
theorem short_history_defaults :
    (∀ (closes : List ℚ) (period : ℕ), closes.length < period + 1 →
      calculateRSI closes period = 50) ∧
    (∀ klines : List Kline, klines.length < 20 → calculateMomentumScore klines = 0) ∧
    (∀ klines : List Kline, klines.length < 10 → calculateSentimentScore klines = 0) := by
  refine ⟨?_, ?_, ?_⟩
  · intro closes period h
    unfold calculateRSI
    rw [if_pos h]
  · intro klines h
    unfold calculateMomentumScore
    rw [if_pos h]
  · intro klines h
    unfold calculateSentimentScore
    rw [if_pos h]

/-- C8 witness: the empty history realises all three defaults. -/
theorem short_history_defaults_witness :
    calculateRSI ([] : List ℚ) 14 = 50 ∧ calculateMomentumScore [] = 0 ∧
    calculateSentimentScore [] = 0 :=
  ⟨short_history_defaults.1 [] 14 (by decide),
   short_history_defaults.2.1 [] (by decide),
   short_history_defaults.2.2 [] (by decide)⟩

/-- C4: the confluence step adds exactly the confluence bonus; the bonus
is +8 iff orderFlow > 10, momentum > 10 and sentiment > 5 hold strictly,
-8 iff orderFlow < -10, momentum < -10 and sentiment < -5 hold strictly;
momentum exactly 10 never triggers any adjustment, while momentum
strictly above 10 with the other bullish conditions met does; otherwise
no adjustment is made. -/
theorem confluence_boundary (f m s c : ℚ) :
    confluenceAdjust f m s c = c + confluenceBonus f m s ∧
    (confluenceBonus f m s = 8 ↔ (10 < f ∧ 10 < m ∧ 5 < s)) ∧
    (confluenceBonus f m s = -8 ↔ (f < -10 ∧ m < -10 ∧ s < -5)) ∧
    confluenceAdjust f 10 s c = c ∧
    (10 < f → 10 < m → 5 < s → confluenceBonus f m s = 8) ∧
    (¬(10 < f ∧ 10 < m ∧ 5 < s) → ¬(f < -10 ∧ m < -10 ∧ s < -5) →
      confluenceBonus f m s = 0) := by
  refine ⟨confluenceAdjust_eq f m s c, ?_, ?_, ?_, ?_, ?_⟩
  · unfold confluenceBonus
    split_ifs with hb hr
    · exact iff_of_true rfl hb
    · exact iff_of_false (by norm_num) hb
    · exact iff_of_false (by norm_num) hb
  · unfold confluenceBonus
    split_ifs with hb hr
    · refine iff_of_false (by norm_num) ?_
      rintro ⟨hf, hm2, hs⟩
      linarith [hb.1]
    · exact iff_of_true rfl hr
    · exact iff_of_false (by norm_num) hr
  · rw [confluenceAdjust_eq]
    have hz : confluenceBonus f 10 s = 0 := by
      unfold confluenceBonus
      rw [if_neg (by rintro ⟨hx, hy, hz2⟩; linarith),
        if_neg (by rintro ⟨hx, hy, hz2⟩; linarith)]
    rw [hz]
    ring
  · intro h1 h2 h3
    unfold confluenceBonus
    rw [if_pos ⟨h1, h2, h3⟩]
  · intro h1 h2
    unfold confluenceBonus
    rw [if_neg h1, if_neg h2]

/-- C4 witness: at orderFlow 11 and sentiment 6, momentum 10.01 (just
above the cutoff) triggers the +8 bonus. -/
theorem confluence_boundary_witness :
    confluenceBonus 11 10.01 6 = 8 :=
  (confluence_boundary 11 10.01 6 0).2.2.2.2.1 (by norm_num) (by norm_num) (by norm_num)

/-- The confidence formula written exactly as the specification states
it: clamp(50 + 1.67 * (0.35*orderFlow + 0.40*momentum + 0.25*sentiment)
+ b, 0, 100) with b the confluence adjustment. -/
def confidenceSpec (f m s : ℚ) : ℚ :=
  clampQ (50 + 1.67 * (0.35 * f + 0.40 * m + 0.25 * s) + confluenceBonus f m s) 0 100

/-- C3: the pre-threshold confidence equals the specification formula,
the confluence term b lies in {8, -8, 0}, and whenever the raw weighted
sum equals 30 the unclamped value is 50 + 30 * 1.67 = 100.1 and the
clamped confidence is 100. -/
theorem confidence_formula (f m s : ℚ) :
    preThresholdConfidence f m s = confidenceSpec f m s ∧
    (confluenceBonus f m s = 8 ∨ confluenceBonus f m s = -8 ∨ confluenceBonus f m s = 0) ∧
    (f * 0.35 + m * 0.40 + s * 0.25 = 30 →
      50 + (f * 0.35 + m * 0.40 + s * 0.25) * 1.67 = 100.1 ∧
      preThresholdConfidence f m s = 100) := by
  refine ⟨?_, confluenceBonus_cases f m s, ?_⟩
  · unfold preThresholdConfidence confidenceSpec clampQ
    rw [confluenceAdjust_eq]
    have hr : 50 + (f * 0.35 + m * 0.40 + s * 0.25) * 1.67 + confluenceBonus f m s
        = 50 + 1.67 * (0.35 * f + 0.40 * m + 0.25 * s) + confluenceBonus f m s := by
      ring
    rw [hr]
  · intro hraw
    refine ⟨by rw [hraw]; norm_num, ?_⟩
    unfold preThresholdConfidence
    rw [confluenceAdjust_eq, hraw]
    have hnb : confluenceBonus f m s = 8 ∨ confluenceBonus f m s = 0 := by
      rcases confluenceBonus_cases f m s with h | h | h
      · exact Or.inl h
      · exfalso
        unfold confluenceBonus at h
        split_ifs at h with hbull hbear
        · norm_num at h
        · obtain ⟨h1, h2, h3⟩ := hbear
          linarith
        · norm_num at h
      · exact Or.inr h
    rcases hnb with h | h <;> rw [h] <;> norm_num [min_def, max_def]

/-- C3 witness: component scores (30, 30, 30) give a raw weighted sum of
exactly 30 and a clamped confidence of 100. -/
theorem confidence_formula_witness :
    (30 : ℚ) * 0.35 + 30 * 0.40 + 30 * 0.25 = 30 ∧
    preThresholdConfidence 30 30 30 = 100 :=
  ⟨by norm_num, ((confidence_formula 30 30 30).2.2 (by norm_num)).2⟩

/-- C2: the direction decision is UP iff confidence is at least the up
threshold of the tier (70 / 62 / 60) and DOWN iff confidence is at most
the down threshold (30 / 38 / 40); in all other cases it is FLAT and
not tradeable; under the aggressive tier a confidence of exactly 50
yields FLAT, and a generated signal whose pre-threshold confidence is 50
has direction FLAT, null confidence and tradeable false. -/
theorem threshold_decision (c : ℚ) (klines : List Kline) (orderBook : OrderBook) :
    ((decideDirection .conservative c).1 = Direction.UP ↔ 70 ≤ c) ∧
    ((decideDirection .conservative c).1 = Direction.DOWN ↔ c ≤ 30) ∧
    ((decideDirection .moderate c).1 = Direction.UP ↔ 62 ≤ c) ∧
    ((decideDirection .moderate c).1 = Direction.DOWN ↔ c ≤ 38) ∧
    ((decideDirection .aggressive c).1 = Direction.UP ↔ 60 ≤ c) ∧
    ((decideDirection .aggressive c).1 = Direction.DOWN ↔ c ≤ 40) ∧
    (∀ a : Aggressiveness,
      (decideDirection a c).1 = Direction.FLAT ↔ (decideDirection a c).2 = false) ∧
    decideDirection .aggressive 50 = (Direction.FLAT, false) ∧
    (preThresholdConfidence (calculateOrderFlowScore orderBook)
        (calculateMomentumScore klines) (calculateSentimentScore klines) = 50 →
      generateSignal klines orderBook .aggressive =
        { direction := Direction.FLAT, confidence := none, tradeable := false }) := by
  refine ⟨(decideDir_spec ⟨70, 30⟩ c (by norm_num)).1,
    (decideDir_spec ⟨70, 30⟩ c (by norm_num)).2.1,
    (decideDir_spec ⟨62, 38⟩ c (by norm_num)).1,
    (decideDir_spec ⟨62, 38⟩ c (by norm_num)).2.1,
    (decideDir_spec ⟨60, 40⟩ c (by norm_num)).1,
    (decideDir_spec ⟨60, 40⟩ c (by norm_num)).2.1,
    ?_, by decide, ?_⟩
  · intro a
    cases a
    · exact (decideDir_spec ⟨70, 30⟩ c (by norm_num)).2.2.2.symm
    · exact (decideDir_spec ⟨62, 38⟩ c (by norm_num)).2.2.2.symm
    · exact (decideDir_spec ⟨60, 40⟩ c (by norm_num)).2.2.2.symm
  · intro h
    unfold generateSignal
    rw [h]
    rw [show decideDirection .aggressive 50 = (Direction.FLAT, false) from by decide]
    rfl

/-- C2 witness: the empty history and a balanced order book give
pre-threshold confidence exactly 50 and an aggressive-tier FLAT signal
with null confidence. -/
theorem threshold_decision_witness :
    generateSignal [] ⟨1, 1, 0.5⟩ .aggressive =
      { direction := Direction.FLAT, confidence := none, tradeable := false } := by
  have hof : calculateOrderFlowScore ⟨1, 1, 0.5⟩ = 0 := by
    unfold calculateOrderFlowScore
    norm_num [min_def, max_def]
  have hmo : calculateMomentumScore [] = 0 := rfl
  have hse : calculateSentimentScore [] = 0 := rfl
  refine (threshold_decision 0 [] ⟨1, 1, 0.5⟩).2.2.2.2.2.2.2.2 ?_
  rw [hof, hmo, hse]
  unfold preThresholdConfidence confluenceAdjust
  norm_num [min_def, max_def]

/-- C1: for every generated signal, tradeable is true iff the direction
is not FLAT, the confidence field is null iff the direction is FLAT, and
when non-null it is the integer obtained by rounding the pre-threshold
confidence. -/
theorem signal_invariant (klines : List Kline) (orderBook : OrderBook) (a : Aggressiveness) :
    ((generateSignal klines orderBook a).tradeable = true ↔
      (generateSignal klines orderBook a).direction ≠ Direction.FLAT) ∧
    ((generateSignal klines orderBook a).confidence = none ↔
      (generateSignal klines orderBook a).direction = Direction.FLAT) ∧
    ((generateSignal klines orderBook a).direction ≠ Direction.FLAT →
      (generateSignal klines orderBook a).confidence =
        some (jsRound (preThresholdConfidence (calculateOrderFlowScore orderBook)
          (calculateMomentumScore klines) (calculateSentimentScore klines)))) := by
  unfold generateSignal decideDirection decideDir
  by_cases h1 : (THRESHOLDS a).up ≤ preThresholdConfidence (calculateOrderFlowScore orderBook)
      (calculateMomentumScore klines) (calculateSentimentScore klines)
  · rw [if_pos h1]
    exact ⟨by simp, by simp, fun _ => by simp⟩
  · rw [if_neg h1]
    by_cases h2 : preThresholdConfidence (calculateOrderFlowScore orderBook)
        (calculateMomentumScore klines) (calculateSentimentScore klines) ≤ (THRESHOLDS a).down
    · rw [if_pos h2]
      exact ⟨by simp, by simp, fun _ => by simp⟩
    · rw [if_neg h2]
      exact ⟨by simp, by simp, fun h => absurd rfl h⟩

/-- C1 witness: the empty history with a fully bid-side order book gives
a non-FLAT signal whose confidence is the rounded pre-threshold value. -/
theorem signal_invariant_witness :
    (generateSignal [] ⟨1, 1, 1⟩ .aggressive).direction ≠ Direction.FLAT ∧
    (generateSignal [] ⟨1, 1, 1⟩ .aggressive).confidence =
      some (jsRound (preThresholdConfidence (calculateOrderFlowScore ⟨1, 1, 1⟩)
        (calculateMomentumScore []) (calculateSentimentScore []))) := by
  have hof : calculateOrderFlowScore ⟨1, 1, 1⟩ = 30 := by
    unfold calculateOrderFlowScore
    norm_num [min_def, max_def]
  have hmo : calculateMomentumScore [] = 0 := rfl
  have hse : calculateSentimentScore [] = 0 := rfl
  have hpre : preThresholdConfidence (calculateOrderFlowScore ⟨1, 1, 1⟩)
      (calculateMomentumScore []) (calculateSentimentScore []) = 67.535 := by
    rw [hof, hmo, hse]
    unfold preThresholdConfidence confluenceAdjust
    norm_num [min_def, max_def]
  have hdir : (generateSignal [] ⟨1, 1, 1⟩ .aggressive).direction ≠ Direction.FLAT := by
    unfold generateSignal decideDirection decideDir
    rw [hpre]
    rw [show THRESHOLDS .aggressive = ⟨60, 40⟩ from rfl]
    rw [if_pos (show ((⟨60, 40⟩ : Threshold)).up ≤ (67.535 : ℚ) by norm_num)]
    simp
  exact ⟨hdir, (signal_invariant [] ⟨1, 1, 1⟩ .aggressive).2.2 hdir⟩

/-- The sentiment rule table only ever produces 15, -15, 8 or -8. -/
lemma sentimentBase_cases (recent : List Kline) :
    sentimentBase recent = 15 ∨ sentimentBase recent = -15 ∨
    sentimentBase recent = 8 ∨ sentimentBase recent = -8 := by
  unfold sentimentBase
  split_ifs <;> simp

/-- C9: on a series of at least 20 candles whose closes all equal the
same positive value, the RSI over the closes is 100 (the zero-average-
loss branch fires on a no-move window) and the momentum score is
-45 clamped to -30, the MACD and trend contributions being 0. -/
theorem momentum_flat_series (klines : List Kline) (v : ℚ)
    (h20 : 20 ≤ klines.length) (_hv : 0 < v)
    (hall : ∀ k ∈ klines, k.close = v) :
    calculateRSI (klines.map (fun k => k.close)) 14 = 100 ∧
    calculateMomentumScore klines = -30 := by
  have hballc : ∀ x ∈ klines.map (fun k => k.close), x = v := by
    intro x hx
    obtain ⟨k, hk, rfl⟩ := List.mem_map.mp hx
    exact hall k hk
  have hlen : (klines.map (fun k => k.close)).length = klines.length :=
    List.length_map _ _
  have hrsi : calculateRSI (klines.map (fun k => k.close)) 14 = 100 :=
    calculateRSI_const _ v (by omega) hballc
  refine ⟨hrsi, ?_⟩
  unfold calculateMomentumScore
  rw [if_neg (by omega)]
  rw [hrsi, macd_histogram_zero]
  have hlen5 : ((klines.map (fun k => k.close)).drop
      ((klines.map (fun k => k.close)).length - 5)).length = 5 := by
    rw [List.length_drop]
    omega
  have hmem : ∀ x ∈ (klines.map (fun k => k.close)).drop
      ((klines.map (fun k => k.close)).length - 5), x = v :=
    fun x hx => hballc x (List.mem_of_mem_drop hx)
  have htrend : trendStrength (klines.map (fun k => k.close)) = 0 := by
    unfold trendStrength
    rw [getD_all_eq 0 hmem (by rw [hlen5]; norm_num),
      getD_all_eq 0 hmem (by rw [hlen5]; norm_num)]
    simp
  rw [htrend]
  unfold momentumRsiPart
  rw [if_pos (by norm_num)]
  norm_num [min_def, max_def]

/-- C9 witness: twenty identical candles at close 100 give RSI 100 and
momentum score -30. -/
theorem momentum_flat_series_witness :
    calculateRSI ((List.replicate 20 (⟨100, 100, 100, 100⟩ : Kline)).map
      (fun k => k.close)) 14 = 100 ∧
    calculateMomentumScore (List.replicate 20 ⟨100, 100, 100, 100⟩) = -30 :=
  momentum_flat_series (List.replicate 20 ⟨100, 100, 100, 100⟩) 100
    (by simp) (by norm_num)
    (fun k hk => by rw [List.eq_of_mem_replicate hk])

/-- C10: with at least 10 candles and positive volumes the sentiment
score is one of exactly -15, -8, 8, 15 and never 0; and when the last
close of the 10-candle window equals its first close the score is
negative, -8 or -15, because the price-up test is strict. -/
theorem sentiment_discrete (klines : List Kline)
    (h10 : 10 ≤ klines.length)
    (_hvol : ∀ k ∈ klines, 0 < k.volume) :
    (calculateSentimentScore klines = -15 ∨ calculateSentimentScore klines = -8 ∨
      calculateSentimentScore klines = 8 ∨ calculateSentimentScore klines = 15) ∧
    calculateSentimentScore klines ≠ 0 ∧
    (((klines.drop (klines.length - 10)).getD 9 dfltKline).close =
        ((klines.drop (klines.length - 10)).getD 0 dfltKline).close →
      (calculateSentimentScore klines = -8 ∨ calculateSentimentScore klines = -15)) := by
  have hbase : calculateSentimentScore klines =
      max (-20) (min 20 (sentimentBase (klines.drop (klines.length - 10)))) := by
    unfold calculateSentimentScore
    rw [if_neg (by omega)]
  refine ⟨?_, ?_, ?_⟩
  · rw [hbase]
    rcases sentimentBase_cases (klines.drop (klines.length - 10)) with h | h | h | h <;>
      rw [h] <;> norm_num [min_def, max_def]
  · rw [hbase]
    rcases sentimentBase_cases (klines.drop (klines.length - 10)) with h | h | h | h <;>
      rw [h] <;> norm_num [min_def, max_def]
  · intro hc
    rw [hbase]
    have hp : priceUp10 (klines.drop (klines.length - 10)) = false := by
      unfold priceUp10
      rw [hc]
      simp
    have hn1 : ¬(priceUp10 (klines.drop (klines.length - 10)) = true ∧
        1.2 < volumeQuot (klines.drop (klines.length - 10))) := by
      rw [hp]
      simp
    have hn3 : ¬(priceUp10 (klines.drop (klines.length - 10)) = true) := by
      rw [hp]
      simp
    unfold sentimentBase
    rw [if_neg hn1]
    by_cases hq : (1.2 : ℚ) < volumeQuot (klines.drop (klines.length - 10))
    · rw [if_pos ⟨hn3, hq⟩]
      right
      norm_num [min_def, max_def]
    · rw [if_neg (fun h => hq h.2), if_neg hn3]
      left
      norm_num [min_def, max_def]

/-- C10 witness: ten identical candles (price unchanged, flat volume)
realise the hypotheses and score -8. -/
theorem sentiment_discrete_witness :
    calculateSentimentScore (List.replicate 10 (⟨100, 100, 100, 5⟩ : Kline)) = -8 ∨
    calculateSentimentScore (List.replicate 10 (⟨100, 100, 100, 5⟩ : Kline)) = -15 :=
  (sentiment_discrete (List.replicate 10 ⟨100, 100, 100, 5⟩) (by simp)
    (fun k hk => by rw [List.eq_of_mem_replicate hk]; norm_num)).2.2 (by simp)
